import Mathlib

/-
Verification of `langchain/chains/history_aware_retriever.py`.

The source builds a `RunnableBranch` with three guarded branches and a
default branch; the guards are predicates over a loosely typed input
dict.  We embed the dict as `TurnInput` (each key either absent or
carrying a tagged value), the external collaborators (prompt renderer,
language model, output parser, retriever) as `Except`-returning
functions, and `RunnableBranch` as a generic first-match dispatcher
over a list of (condition, action) pairs.
-/

set_option autoImplicit false

namespace HistoryAware

/-- A conversational message: an instance of `BaseMessage` in the source,
carrying a role and a content string. -/
structure Message where
  role : String
  content : String
deriving DecidableEq, Repr

/-- An element of the `messages` list in the input dict: either a genuine
`BaseMessage` instance or some other Python value (modelled with an opaque
string payload).  `isinstance(i, BaseMessage)` distinguishes the two. -/
inductive MElem where
  | msg (m : Message)
  | other (s : String)
deriving DecidableEq, Repr

/-- `isinstance(i, BaseMessage)` on a list element. -/
def MElem.isMessage : MElem → Bool
  | .msg _ => true
  | .other _ => false

/-- The value stored under the `messages` key of the input dict: the key can
be absent, hold a non-list Python value, or hold a list. -/
inductive MessagesField where
  | absent
  | nonList
  | list (xs : List MElem)
deriving DecidableEq, Repr

/-- The value stored under the `chat_history` key: absent, a string, or a
sequence of items (strings or messages).  Only Python truthiness of this
value matters to the source. -/
inductive ChatHistoryField where
  | absent
  | str (s : String)
  | list (xs : List MElem)
deriving DecidableEq, Repr

/-- The input dict handed to the chain per invocation: the three keys the
source reads.  `input := none` means the `input` key is missing (its
unconditional `x["input"]` lookup would raise `KeyError`). -/
structure TurnInput where
  input : Option String
  chat_history : ChatHistoryField
  messages : MessagesField
deriving DecidableEq, Repr

/-- `x.get("messages", [])`: the value under `messages`, defaulting to the
empty list when the key is absent. -/
def messagesOrDefault (x : TurnInput) : MessagesField :=
  match x.messages with
  | .absent => .list []
  | .nonList => .nonList
  | .list xs => .list xs

/-- `len(x.get("messages", []))`, evaluated only under the guard that the
value is a list (Python short-circuit `and`); 0 on the unreachable
non-list arm. -/
def messagesLen (x : TurnInput) : Nat :=
  match messagesOrDefault x with
  | .list xs => xs.length
  | .nonList => 0
  | .absent => 0

/-- `messages_param_is_message_list(x)` from the source:
`isinstance(x.get("messages", []), list) and len(...) > 0 and
all(isinstance(i, BaseMessage) for i in ...)`. -/
def messages_param_is_message_list (x : TurnInput) : Bool :=
  match messagesOrDefault x with
  | .list xs => decide (xs.length > 0) && xs.all MElem.isMessage
  | .nonList => false
  | .absent => false

/-- Python truthiness of `x.get("chat_history", False)`: an absent key gives
`False`; an empty string and an empty sequence are both falsy. -/
def chatHistoryTruthy (x : TurnInput) : Bool :=
  match x.chat_history with
  | .absent => false
  | .str s => !(s == "")
  | .list xs => !xs.isEmpty

/-- Guard of the first branch:
`messages_param_is_message_list(x) and len(x.get("messages", [])) > 1`. -/
def cond1 (x : TurnInput) : Bool :=
  messages_param_is_message_list x && decide (messagesLen x > 1)

/-- Guard of the second branch:
`messages_param_is_message_list(x) and len(x.get("messages", [])) == 1`. -/
def cond2 (x : TurnInput) : Bool :=
  messages_param_is_message_list x && decide (messagesLen x = 1)

/-- Guard of the third branch: `not x.get("chat_history", False)`. -/
def cond3 (x : TurnInput) : Bool :=
  !chatHistoryTruthy x

/-- Errors an invocation can surface: Python lookup/indexing/attribute
errors raised by the branch lambdas, or an error of a collaborator,
propagated unchanged. -/
inductive RouterError (ε : Type) where
  | keyError (k : String)
  | indexError
  | typeError
  | attrError
  | collab (e : ε)
deriving DecidableEq, Repr

/-- The external collaborators, modelled as deterministic fallible
functions: the prompt template renders the whole input dict, the language
model consumes the rendered prompt, `StrOutputParser` extracts a string,
and the retriever maps a query string to an ordered document list. -/
structure Collaborators (P O D ε : Type) where
  renderPrompt : TurnInput → Except ε P
  llm : P → Except ε O
  strOutputParser : O → Except ε String
  retrieve : String → Except ε (List D)

variable {P O D ε : Type}

/-- The first three stages of `prompt | llm | StrOutputParser()`: the
standalone search query produced by the rewrite pipeline, before the
retriever runs.  Any collaborator error is surfaced unchanged. -/
def rewriteQuery (c : Collaborators P O D ε) (x : TurnInput) :
    Except (RouterError ε) String :=
  match c.renderPrompt x with
  | .error e => .error (.collab e)
  | .ok p =>
    match c.llm p with
    | .error e => .error (.collab e)
    | .ok o =>
      match c.strOutputParser o with
      | .error e => .error (.collab e)
      | .ok s => .ok s

/-- The full rewrite chain `prompt | llm | StrOutputParser() | retriever`. -/
def rewritePipeline (c : Collaborators P O D ε) (x : TurnInput) :
    Except (RouterError ε) (List D) :=
  match rewriteQuery c x with
  | .error e => .error e
  | .ok s =>
    match c.retrieve s with
    | .error e => .error (.collab e)
    | .ok ds => .ok ds

/-- `x["messages"][-1].content`: raises `KeyError` when the key is absent,
a type error when the value is not indexable as needed, `IndexError` on an
empty list, and an attribute error when the last element has no `content`
attribute. -/
def lastMessageContent (x : TurnInput) : Except (RouterError ε) String :=
  match x.messages with
  | .absent => .error (.keyError "messages")
  | .nonList => .error .typeError
  | .list xs =>
    match xs.getLast? with
    | none => .error .indexError
    | some (.msg m) => .ok m.content
    | some (.other _) => .error .attrError

/-- `x["input"]`: raises `KeyError` when the `input` key is absent. -/
def getInputItem (x : TurnInput) : Except (RouterError ε) String :=
  match x.input with
  | none => .error (.keyError "input")
  | some s => .ok s

/-- Action of the second branch: `(lambda x: x["messages"][-1].content) |
retriever`. -/
def passthroughMessages (c : Collaborators P O D ε) (x : TurnInput) :
    Except (RouterError ε) (List D) :=
  match lastMessageContent (ε := ε) x with
  | .error e => .error e
  | .ok s =>
    match c.retrieve s with
    | .error e => .error (.collab e)
    | .ok ds => .ok ds

/-- Action of the third branch: `(lambda x: x["input"]) | retriever`. -/
def passthroughInput (c : Collaborators P O D ε) (x : TurnInput) :
    Except (RouterError ε) (List D) :=
  match getInputItem (ε := ε) x with
  | .error e => .error e
  | .ok s =>
    match c.retrieve s with
    | .error e => .error (.collab e)
    | .ok ds => .ok ds

/-- `RunnableBranch`: an ordered list of (condition, action) pairs plus a
default action. -/
structure RunnableBranch (α β : Type) where
  branches : List ((α → Bool) × (α → β))
  defaultBranch : α → β

/-- First-match evaluation of the branch list: conditions are checked in
order and only the first matching branch's action runs; when none matches
the default action runs. -/
def runBranches {α β : Type} (bs : List ((α → Bool) × (α → β))) (d : α → β)
    (x : α) : β :=
  match bs with
  | [] => d x
  | (cond, act) :: rest => if cond x then act x else runBranches rest d x

/-- `RunnableBranch.invoke`. -/
def RunnableBranch.invoke {α β : Type} (rb : RunnableBranch α β) (x : α) : β :=
  runBranches rb.branches rb.defaultBranch x

/-- The `retrieve_documents` RunnableBranch from the source: three guarded
branches and the default rewrite chain. -/
def retrieveDocuments (c : Collaborators P O D ε) :
    RunnableBranch TurnInput (Except (RouterError ε) (List D)) :=
  { branches :=
      [ (cond1, rewritePipeline c),
        (cond2, passthroughMessages c),
        (cond3, passthroughInput c) ],
    defaultBranch := rewritePipeline c }

/-- One invocation of the chain returned by the source. -/
def invoke (c : Collaborators P O D ε) (x : TurnInput) :
    Except (RouterError ε) (List D) :=
  (retrieveDocuments c).invoke x

/-- The prompt template's construction-time surface: the variable names it
declares (`prompt.input_variables`). -/
structure PromptTemplate where
  input_variables : List String
deriving DecidableEq, Repr

/-- `create_history_aware_retriever`: raises `ValueError` when the prompt
declares neither `input` nor `messages`, otherwise returns the
`retrieve_documents` RunnableBranch. -/
def create_history_aware_retriever (prompt : PromptTemplate)
    (c : Collaborators P O D ε) :
    Except String (RunnableBranch TurnInput (Except (RouterError ε) (List D))) :=
  if !(prompt.input_variables.contains "input")
      && !(prompt.input_variables.contains "messages") then
    .error "Expected either input or messages to be prompt variables"
  else
    .ok (retrieveDocuments c)

/-- Whether an `Except` computation succeeded. -/
def isOkE {α β : Type} : Except α β → Bool
  | .ok _ => true
  | .error _ => false

/-- The four execution paths of the router, in source order. -/
inductive Branch where
  | multiTurn
  | singleTurn
  | emptyHistory
  | defaultRewrite
deriving DecidableEq, Repr

/-- First-match branch selection: the branch whose guard is the first to
hold, in the fixed order of the source. -/
def selectedBranch (x : TurnInput) : Branch :=
  if cond1 x then .multiTurn
  else if cond2 x then .singleTurn
  else if cond3 x then .emptyHistory
  else .defaultRewrite

/-- Whether a branch fires on an input under first-match semantics: its
guard holds and every earlier guard fails (the default fires when all
three guards fail). -/
def firesAt (x : TurnInput) : Branch → Bool
  | .multiTurn => cond1 x
  | .singleTurn => !cond1 x && cond2 x
  | .emptyHistory => !cond1 x && !cond2 x && cond3 x
  | .defaultRewrite => !cond1 x && !cond2 x && !cond3 x

/-- The action attached to each branch in the source. -/
def branchAction (c : Collaborators P O D ε) : Branch → TurnInput →
    Except (RouterError ε) (List D)
  | .multiTurn => rewritePipeline c
  | .singleTurn => passthroughMessages c
  | .emptyHistory => passthroughInput c
  | .defaultRewrite => rewritePipeline c

/-- The single string each execution path hands to the retriever. -/
def searchQuery (c : Collaborators P O D ε) (x : TurnInput) :
    Except (RouterError ε) String :=
  match selectedBranch x with
  | .multiTurn => rewriteQuery c x
  | .singleTurn => lastMessageContent x
  | .emptyHistory => getInputItem x
  | .defaultRewrite => rewriteQuery c x

theorem invoke_eq_selectedBranch (c : Collaborators P O D ε) (x : TurnInput) :
    invoke c x = branchAction c (selectedBranch x) x := by
  unfold invoke RunnableBranch.invoke retrieveDocuments selectedBranch
  by_cases h1 : cond1 x <;> by_cases h2 : cond2 x <;> by_cases h3 : cond3 x <;>
    simp [runBranches, h1, h2, h3, branchAction]

theorem invoke_eq_searchQuery_retrieve (c : Collaborators P O D ε)
    (x : TurnInput) :
    invoke c x =
      match searchQuery c x with
      | .error e => .error e
      | .ok s =>
        match c.retrieve s with
        | .error e => .error (.collab e)
        | .ok ds => .ok ds := by
  rw [invoke_eq_selectedBranch]
  unfold searchQuery
  cases selectedBranch x <;>
    simp only [branchAction, rewritePipeline, passthroughMessages,
      passthroughInput]

/-- Shorthand for a conforming user message. -/
def msgU (s : String) : MElem :=
  .msg { role := "user", content := s }

/-- Deterministic demo collaborators used by witnesses. -/
def demoCollab : Collaborators String String String String :=
  { renderPrompt := fun _ => .ok "rendered prompt",
    llm := fun p => .ok (String.append "llm answer to " p),
    strOutputParser := fun o => .ok o,
    retrieve := fun s => .ok [String.append "doc for " s] }

/-- Demo collaborators whose retriever always fails. -/
def failRetrCollab : Collaborators String String String String :=
  { renderPrompt := fun _ => .ok "rendered prompt",
    llm := fun p => .ok p,
    strOutputParser := fun o => .ok o,
    retrieve := fun _ => .error "retriever down" }

/-- A three-message conversation in the unified `messages` form. -/
def turnMulti : TurnInput :=
  { input := none, chat_history := .absent,
    messages := .list
      [ msgU "What is X?",
        MElem.msg { role := "assistant", content := "X is ..." },
        msgU "What about Y?" ] }

/-- A single-message conversation in the unified `messages` form. -/
def turnSingle : TurnInput :=
  { input := none, chat_history := .absent,
    messages := .list [msgU "What is X?"] }

/-- Legacy form with an empty history list. -/
def turnLegacyEmpty : TurnInput :=
  { input := some "What is X?", chat_history := .list [],
    messages := .absent }

/-- Legacy form with a non-empty history. -/
def turnLegacyFull : TurnInput :=
  { input := some "What about it?",
    chat_history := .list [.other "What is X?", .other "X is ..."],
    messages := .absent }

/-- A malformed `messages` list mixing a message with a plain string. -/
def turnMalformed : TurnInput :=
  { input := some "hello", chat_history := .absent,
    messages := .list [msgU "What is X?", .other "not a message"] }

/-- An input with no key at all. -/
def turnBare : TurnInput :=
  { input := none, chat_history := .absent, messages := .absent }

/-- C1: a `messages` list of length > 1 whose elements all conform routes
to the rewrite pipeline over the full input, never to a passthrough
branch. -/
theorem multi_turn_messages_route (c : Collaborators P O D ε) (x : TurnInput)
    (xs : List MElem) (hm : x.messages = .list xs) (hlen : 1 < xs.length)
    (hall : xs.all MElem.isMessage = true) :
    selectedBranch x = .multiTurn ∧ invoke c x = rewritePipeline c x := by
  have hc1 : cond1 x = true := by
    unfold cond1 messages_param_is_message_list messagesLen messagesOrDefault
    rw [hm]
    simp [hall]
    omega
  constructor
  · unfold selectedBranch
    simp [hc1]
  · rw [invoke_eq_selectedBranch]
    unfold selectedBranch
    simp [hc1, branchAction]

/-- C1 witness at the three-message conversation. -/
theorem multi_turn_messages_route_witness :
    selectedBranch turnMulti = .multiTurn ∧
      invoke demoCollab turnMulti = rewritePipeline demoCollab turnMulti :=
  multi_turn_messages_route demoCollab turnMulti
    [ msgU "What is X?",
      MElem.msg { role := "assistant", content := "X is ..." },
      msgU "What about Y?" ] rfl (by decide) (by decide)

/-- C2: a `messages` list holding exactly one conforming message routes to
the passthrough branch, handing that message's content verbatim to the
retriever with no rewrite-pipeline involvement. -/
theorem single_message_passthrough (c : Collaborators P O D ε)
    (x : TurnInput) (m : Message) (hm : x.messages = .list [MElem.msg m]) :
    selectedBranch x = .singleTurn ∧
      invoke c x =
        match c.retrieve m.content with
        | .error e => .error (.collab e)
        | .ok ds => .ok ds := by
  have hp : messages_param_is_message_list x = true := by
    unfold messages_param_is_message_list messagesOrDefault
    rw [hm]
    simp [MElem.isMessage]
  have hlen : messagesLen x = 1 := by
    unfold messagesLen messagesOrDefault
    rw [hm]
    rfl
  have hc1 : cond1 x = false := by
    unfold cond1
    simp [hlen]
  have hc2 : cond2 x = true := by
    unfold cond2
    simp [hp, hlen]
  constructor
  · unfold selectedBranch
    simp [hc1, hc2]
  · rw [invoke_eq_selectedBranch]
    unfold selectedBranch
    simp only [hc1, hc2, if_false, if_true, Bool.false_eq_true,
      branchAction]
    unfold passthroughMessages lastMessageContent
    rw [hm]
    rfl

/-- C2 witness at the single-message conversation. -/
theorem single_message_passthrough_witness :
    selectedBranch turnSingle = .singleTurn ∧
      invoke demoCollab turnSingle =
        match demoCollab.retrieve
            (Message.content { role := "user", content := "What is X?" }) with
        | .error e => .error (.collab e)
        | .ok ds => .ok ds :=
  single_message_passthrough demoCollab turnSingle
    { role := "user", content := "What is X?" } rfl

/-- C3: with no conforming non-empty `messages` list and an absent, empty
string, or empty sequence `chat_history`, the `input` string is handed to
the retriever verbatim, with no rewrite-pipeline invocation. -/
theorem empty_history_passthrough (c : Collaborators P O D ε)
    (x : TurnInput) (s : String)
    (hmsg : messages_param_is_message_list x = false)
    (hch : x.chat_history = .absent ∨ x.chat_history = .str "" ∨
      x.chat_history = .list [])
    (hin : x.input = some s) :
    selectedBranch x = .emptyHistory ∧
      invoke c x =
        match c.retrieve s with
        | .error e => .error (.collab e)
        | .ok ds => .ok ds := by
  have hc1 : cond1 x = false := by
    unfold cond1
    simp [hmsg]
  have hc2 : cond2 x = false := by
    unfold cond2
    simp [hmsg]
  have hc3 : cond3 x = true := by
    unfold cond3 chatHistoryTruthy
    rcases hch with h | h | h <;> rw [h] <;> rfl
  constructor
  · unfold selectedBranch
    simp [hc1, hc2, hc3]
  · rw [invoke_eq_selectedBranch]
    unfold selectedBranch
    simp only [hc1, hc2, hc3, if_false, if_true, Bool.false_eq_true,
      branchAction]
    unfold passthroughInput getInputItem
    rw [hin]

/-- C3 witness at the legacy input with an empty history list. -/
theorem empty_history_passthrough_witness :
    selectedBranch turnLegacyEmpty = .emptyHistory ∧
      invoke demoCollab turnLegacyEmpty =
        match demoCollab.retrieve "What is X?" with
        | .error e => .error (.collab e)
        | .ok ds => .ok ds :=
  empty_history_passthrough demoCollab turnLegacyEmpty "What is X?"
    (by decide) (Or.inr (Or.inr rfl)) rfl

/-- C4: with no conforming non-empty `messages` list and a non-empty
`chat_history`, the default branch runs the rewrite pipeline over the
input dict and hands its result to the retriever. -/
theorem nonempty_history_rewrite (c : Collaborators P O D ε)
    (x : TurnInput)
    (hmsg : messages_param_is_message_list x = false)
    (hch : (∃ s, x.chat_history = .str s ∧ s ≠ "") ∨
      (∃ xs, x.chat_history = .list xs ∧ xs ≠ [])) :
    selectedBranch x = .defaultRewrite ∧ invoke c x = rewritePipeline c x := by
  have hc1 : cond1 x = false := by
    unfold cond1
    simp [hmsg]
  have hc2 : cond2 x = false := by
    unfold cond2
    simp [hmsg]
  have hc3 : cond3 x = false := by
    unfold cond3 chatHistoryTruthy
    rcases hch with ⟨s, h, hs⟩ | ⟨xs, h, hxs⟩ <;> rw [h] <;> simp_all
  constructor
  · unfold selectedBranch
    simp [hc1, hc2, hc3]
  · rw [invoke_eq_selectedBranch]
    unfold selectedBranch
    simp [hc1, hc2, hc3, branchAction]

/-- C4 witness at the legacy input with two prior turns. -/
theorem nonempty_history_rewrite_witness :
    selectedBranch turnLegacyFull = .defaultRewrite ∧
      invoke demoCollab turnLegacyFull =
        rewritePipeline demoCollab turnLegacyFull :=
  nonempty_history_rewrite demoCollab turnLegacyFull (by decide)
    (Or.inr ⟨[.other "What is X?", .other "X is ..."], rfl, by decide⟩)

/-- C5: construction fails exactly when the prompt template declares
neither `input` nor `messages`; when at least one is declared it returns
the branch runnable, which does not depend on the declared variables, so
no configuration error can arise at invocation time. -/
theorem construction_validation (c : Collaborators P O D ε)
    (prompt : PromptTemplate) :
    (isOkE (create_history_aware_retriever prompt c) = false ↔
      prompt.input_variables.contains "input" = false ∧
        prompt.input_variables.contains "messages" = false) ∧
    ((prompt.input_variables.contains "input" = true ∨
        prompt.input_variables.contains "messages" = true) →
      create_history_aware_retriever prompt c = .ok (retrieveDocuments c)) := by
  unfold create_history_aware_retriever
  by_cases hi : prompt.input_variables.contains "input" = true <;>
    by_cases hm : prompt.input_variables.contains "messages" = true <;>
      simp_all [isOkE]

/-- C5 witness: a prompt declaring only `topic` is rejected, one declaring
`input` is accepted. -/
theorem construction_validation_witness :
    isOkE (create_history_aware_retriever { input_variables := ["topic"] }
        demoCollab) = false ∧
      create_history_aware_retriever { input_variables := ["input"] }
        demoCollab = .ok (retrieveDocuments demoCollab) :=
  ⟨(construction_validation demoCollab
      { input_variables := ["topic"] }).1.mpr ⟨by decide, by decide⟩,
    (construction_validation demoCollab
      { input_variables := ["input"] }).2 (Or.inl (by decide))⟩

/-- C6: a `messages` value that is empty, not a list, or a list with a
non-conforming element makes the message-list classification false, so
both message branches are skipped and selection falls through to the
legacy-history branches. -/
theorem malformed_messages_fall_through (x : TurnInput)
    (h : x.messages = .nonList ∨
      ∃ xs, x.messages = .list xs ∧
        (xs.length = 0 ∨ xs.all MElem.isMessage = false)) :
    messages_param_is_message_list x = false ∧ cond1 x = false ∧
      cond2 x = false ∧
      (selectedBranch x = .emptyHistory ∨
        selectedBranch x = .defaultRewrite) := by
  have hp : messages_param_is_message_list x = false := by
    unfold messages_param_is_message_list messagesOrDefault
    rcases h with h | ⟨xs, hm, hbad⟩
    · rw [h]
    · rw [hm]
      rcases hbad with hb | hb <;> simp [hb]
  have hc1 : cond1 x = false := by
    unfold cond1
    simp [hp]
  have hc2 : cond2 x = false := by
    unfold cond2
    simp [hp]
  refine ⟨hp, hc1, hc2, ?_⟩
  unfold selectedBranch
  cases hc3 : cond3 x <;> simp [hc1, hc2, hc3]

/-- C6 witness at the mixed message list. -/
theorem malformed_messages_fall_through_witness :
    messages_param_is_message_list turnMalformed = false ∧
      cond1 turnMalformed = false ∧ cond2 turnMalformed = false ∧
      (selectedBranch turnMalformed = .emptyHistory ∨
        selectedBranch turnMalformed = .defaultRewrite) :=
  malformed_messages_fall_through turnMalformed
    (Or.inr ⟨[msgU "What is X?", .other "not a message"], rfl,
      Or.inr (by decide)⟩)

/-- C7: under the fixed priority order exactly one branch fires per
invocation — the first whose guard holds, the default when none does —
and the invocation result is exactly that branch's action. -/
theorem exactly_one_branch_fires (c : Collaborators P O D ε)
    (x : TurnInput) :
    (∃! b : Branch, firesAt x b = true) ∧
      firesAt x (selectedBranch x) = true ∧
      invoke c x = branchAction c (selectedBranch x) x := by
  have hsel : firesAt x (selectedBranch x) = true := by
    unfold selectedBranch
    by_cases h1 : cond1 x <;> by_cases h2 : cond2 x <;>
      by_cases h3 : cond3 x <;> simp [h1, h2, h3, firesAt]
  have huniq : ∀ b : Branch, firesAt x b = true → b = selectedBranch x := by
    intro b hb
    unfold selectedBranch
    cases b <;> by_cases h1 : cond1 x <;> by_cases h2 : cond2 x <;>
      by_cases h3 : cond3 x <;> simp_all [firesAt]
  exact ⟨⟨selectedBranch x, hsel, huniq⟩, hsel, invoke_eq_selectedBranch c x⟩

/-- C8: routing is deterministic — identical inputs under the same
(functionally modelled) collaborators select the same branch, produce the
same search query, and return the same result. -/
theorem routing_deterministic (c : Collaborators P O D ε)
    (x1 x2 : TurnInput) (h : x1 = x2) :
    selectedBranch x1 = selectedBranch x2 ∧
      searchQuery c x1 = searchQuery c x2 ∧ invoke c x1 = invoke c x2 := by
  subst h
  exact ⟨rfl, rfl, rfl⟩

/-- C8 witness: two invocations on the same legacy input agree. -/
theorem routing_deterministic_witness :
    selectedBranch turnLegacyFull = selectedBranch turnLegacyFull ∧
      searchQuery demoCollab turnLegacyFull =
        searchQuery demoCollab turnLegacyFull ∧
      invoke demoCollab turnLegacyFull = invoke demoCollab turnLegacyFull :=
  routing_deterministic demoCollab turnLegacyFull turnLegacyFull rfl

/-- C9: collaborator failures are surfaced unchanged — an error produced
while building the search query is returned as-is, a retriever error is
returned wrapped only in the collaborator-error constructor, and on full
success the retriever's document list is returned unmodified and in the
retriever's order. -/
theorem collaborator_errors_propagate (c : Collaborators P O D ε)
    (x : TurnInput) :
    (∀ e, searchQuery c x = .error e → invoke c x = .error e) ∧
    (∀ s, searchQuery c x = .ok s →
      (∀ e, c.retrieve s = .error e → invoke c x = .error (.collab e)) ∧
      (∀ ds, c.retrieve s = .ok ds → invoke c x = .ok ds)) ∧
    ((selectedBranch x = .multiTurn ∨ selectedBranch x = .defaultRewrite) →
      ∀ e, c.renderPrompt x = .error e →
        invoke c x = .error (.collab e)) := by
  have hfac := invoke_eq_searchQuery_retrieve c x
  refine ⟨?_, ?_, ?_⟩
  · intro e he
    rw [hfac, he]
  · intro s hs
    constructor
    · intro e he
      rw [hfac, hs]
      simp [he]
    · intro ds hds
      rw [hfac, hs]
      simp [hds]
  · intro hb e he
    have hq : searchQuery c x = .error (.collab e) := by
      unfold searchQuery
      rcases hb with h | h <;> rw [h] <;> unfold rewriteQuery <;> rw [he]
    rw [hfac, hq]

/-- C9 witness: a failing retriever's error is surfaced unchanged, and a
succeeding retriever's document list is returned unmodified. -/
theorem collaborator_errors_propagate_witness :
    invoke failRetrCollab turnLegacyEmpty =
        .error (.collab "retriever down") ∧
      invoke demoCollab turnLegacyEmpty = .ok ["doc for What is X?"] :=
  ⟨((collaborator_errors_propagate failRetrCollab turnLegacyEmpty).2.1
      "What is X?" rfl).1 "retriever down" rfl,
    ((collaborator_errors_propagate demoCollab turnLegacyEmpty).2.1
      "What is X?" rfl).2 ["doc for What is X?"] rfl⟩

/-- C10: with no conforming message list, a falsy `chat_history`, and no
`input` key, the passthrough branch's unconditional lookup fails with a
`KeyError` on `input`. -/
theorem missing_input_key_raises (c : Collaborators P O D ε)
    (x : TurnInput)
    (hmsg : messages_param_is_message_list x = false)
    (hch : chatHistoryTruthy x = false) (hin : x.input = none) :
    selectedBranch x = .emptyHistory ∧
      invoke c x = .error (.keyError "input") := by
  have hc1 : cond1 x = false := by
    unfold cond1
    simp [hmsg]
  have hc2 : cond2 x = false := by
    unfold cond2
    simp [hmsg]
  have hc3 : cond3 x = true := by
    unfold cond3
    simp [hch]
  constructor
  · unfold selectedBranch
    simp [hc1, hc2, hc3]
  · rw [invoke_eq_selectedBranch]
    unfold selectedBranch
    simp only [hc1, hc2, hc3, if_false, if_true, Bool.false_eq_true,
      branchAction]
    unfold passthroughInput getInputItem
    rw [hin]

/-- C10 witness at the input carrying no key at all. -/
theorem missing_input_key_raises_witness :
    selectedBranch turnBare = .emptyHistory ∧
      invoke demoCollab turnBare = .error (.keyError "input") :=
  missing_input_key_raises demoCollab turnBare (by decide) (by decide) rfl

end HistoryAware
